import Mathlib

/-!
# Verification of the UTM Controller device-communication and measurement core

Shallow embedding of the core of the `GUI-FOR-UTM` repository
(`serial_handler.py`, `utm_controller.py`, `graph_plotter.py`, `utils.py`,
`config.py`) and proofs about its line framer, protocol dispatcher,
command layer, reconnection supervisor, measurement pipeline, material
analysis engine and safety monitor.

Numeric values that the Python source holds as IEEE doubles are modelled
as exact rationals (`ℚ`); the analysis engine's NaN/inf handling is
modelled by the `PFloat` wrapper which tags a value as finite or not.
Byte strings on the wire are modelled as `List Char`.
-/

namespace UTM

/-! ## Configuration constants (config.py) -/

/-- Constant `UTMConfig.MAX_PLOT_POINTS` (config.py line 60). -/
def MAX_PLOT_POINTS : ℕ := 1000

/-- Constant `UTMConfig.RECONNECT_ATTEMPTS` (config.py line 5); `_attempt_reconnection`
uses the same value as a local literal `max_attempts = 3`. -/
def RECONNECT_ATTEMPTS : ℕ := 3

/-! ## Character helpers for the line framer -/

/-- Python's notion of whitespace as used by `str.strip()`. -/
def isPySpace (c : Char) : Bool :=
  c = ' ' ∨ c = '\t' ∨ c = '\n' ∨ c = '\r' ∨ c = '\x0b' ∨ c = '\x0c'

/-- Python `str.strip()`: remove leading and trailing whitespace. -/
def pyStrip (l : List Char) : List Char :=
  ((l.dropWhile isPySpace).reverse.dropWhile isPySpace).reverse

/-- Remove the line-boundary byte from a byte sequence (used to state the
conservation property). -/
def removeNL (l : List Char) : List Char :=
  l.filter (fun c => !(c = '\n' : Bool))

/-! ## Line framer (serial_handler.py, `_process_received_data`, lines 189-208) -/

/-- Split a buffer at every newline: the first component is the list of
newline-terminated segments (without their terminators), the second the
trailing fragment after the last newline.  This is the repeated
`buffer.split('\n', 1)` of the source's while loop, before stripping. -/
def rawSplitNL : List Char → List (List Char) × List Char
  | [] => ([], [])
  | c :: rest =>
    let r := rawSplitNL rest
    if c = '\n' then ([] :: r.1, r.2)
    else
      match r.1 with
      | [] => ([], c :: r.2)
      | l :: ls => ((c :: l) :: ls, r.2)

/-- The `while '\n' in self.receive_buffer` loop of `_process_received_data`:
each complete line is stripped and delivered only when non-empty; the
trailing fragment is retained. -/
def splitCompleteLines (buf : List Char) : List (List Char) × List Char :=
  let r := rawSplitNL buf
  ((r.1.map pyStrip).filter (fun l => !l.isEmpty), r.2)

/-- Function `SerialHandler._process_received_data` as a pure function: the state is
the accumulator `receive_buffer`, the result is the new buffer plus the
list of frames handed to `data_callback`, in call order.  After the line
loop the source re-delivers the raw chunk itself whenever it is non-empty
(`if data and self.data_callback: self.data_callback(data)`). -/
def processReceivedData (buffer data : List Char) : List Char × List (List Char) :=
  let r := splitCompleteLines (buffer ++ data)
  (r.2, r.1 ++ (if data.isEmpty then [] else [data]))

/-- One framer call viewed as a fold step over the (buffer, frames so far)
state, collecting every frame delivered to the callback. -/
def feedStepAll (st : List Char × List (List Char)) (ch : List Char) :
    List Char × List (List Char) :=
  let r := processReceivedData st.1 ch
  (r.1, st.2 ++ r.2)

/-- Feed a sequence of chunks through the framer starting from an empty
buffer, collecting every frame delivered to the callback. -/
def feedAll (chunks : List (List Char)) : List Char × List (List Char) :=
  chunks.foldl feedStepAll ([], [])

/-- One framer call viewed as a fold step, collecting only the frames
emitted by the line loop (complete, stripped lines) and not the raw-chunk
re-deliveries.  The buffer evolves exactly as in `feedStepAll`. -/
def feedStepComplete (st : List Char × List (List Char)) (ch : List Char) :
    List Char × List (List Char) :=
  let r := splitCompleteLines (st.1 ++ ch)
  (r.2, st.2 ++ r.1)

/-- Fold `feedStepComplete` from an arbitrary (buffer, frames) state. -/
def feedCompleteFrom (st : List Char × List (List Char))
    (chunks : List (List Char)) : List Char × List (List Char) :=
  chunks.foldl feedStepComplete st

/-- Like `feedAll` but collecting only the complete-line frames. -/
def feedComplete (chunks : List (List Char)) : List Char × List (List Char) :=
  feedCompleteFrom ([], []) chunks

/-- A chunk whose bytes, other than line boundaries, are not whitespace
(so that the source's per-line `strip()` is the identity on its lines). -/
def CleanChunk (l : List Char) : Prop :=
  ∀ c ∈ l, c = '\n' ∨ isPySpace c = false

instance (l : List Char) : Decidable (CleanChunk l) := by
  unfold CleanChunk; infer_instance

/-- A byte sequence containing no whitespace at all (the invariant of the
retained buffer fragment between framer calls on clean input). -/
def NoSpace (l : List Char) : Prop := ∀ c ∈ l, isPySpace c = false

/-! ## Numeric payload parsing

`handle_serial_data` calls the Python builtins `float(...)` / `int(...)` on
the payload field.  The decimal core of those builtins is modelled here
(optional surrounding whitespace, optional sign, digits with at most one
point); the exotic accepted forms (exponents, `inf`, `nan`, underscores)
are not exercised by any claim and are left out, so those inputs are
treated as malformed. -/

/-- Python `str.split(sep)` (split at every separator), accumulator form. -/
def splitOnCharAux (sep : Char) : List Char → List Char → List (List Char)
  | [], acc => [acc.reverse]
  | c :: rest, acc =>
    if c = sep then acc.reverse :: splitOnCharAux sep rest []
    else splitOnCharAux sep rest (c :: acc)

/-- Python `str.split(sep)`: always returns at least one field. -/
def splitOnChar (sep : Char) (l : List Char) : List (List Char) :=
  splitOnCharAux sep l []

/-- Payload field `data.split(':')[1]` as used throughout `handle_serial_data`. -/
def colonField1 (data : List Char) : List Char :=
  (splitOnChar ':' data).getD 1 []

/-- Non-empty all-digit check. -/
def isDigitList (l : List Char) : Bool :=
  !l.isEmpty && l.all Char.isDigit

/-- Value of a digit string. -/
def digitsToNat (l : List Char) : ℕ :=
  l.foldl (fun a c => a * 10 + (c.toNat - 48)) 0

/-- Decimal core of Python `float(str)`. -/
def pyParseFloat (s : List Char) : Option ℚ :=
  let core : List Char → Option ℚ := fun body =>
    match splitOnChar '.' body with
    | [ip] => if isDigitList ip then some (digitsToNat ip) else none
    | [ip, fp] =>
      if (ip.all Char.isDigit && fp.all Char.isDigit) &&
          !(ip.isEmpty && fp.isEmpty) then
        some ((digitsToNat ip : ℚ) + (digitsToNat fp : ℚ) / (10 : ℚ) ^ fp.length)
      else none
    | _ => none
  match pyStrip s with
  | '-' :: r => (core r).map (fun q => -q)
  | '+' :: r => core r
  | r => core r

/-- Decimal core of Python `int(str)`. -/
def pyParseInt (s : List Char) : Option ℤ :=
  let core : List Char → Option ℤ := fun body =>
    if isDigitList body then some (digitsToNat body) else none
  match pyStrip s with
  | '-' :: r => (core r).map (fun n => -n)
  | '+' :: r => core r
  | r => core r

/-! ## Controller state, commands and dispatcher
(utm_controller.py, serial_handler.py, gui_components.py) -/

/-- The operator command intents of `UTMController` / `UTMControlPanel`. -/
inductive Cmd
  | openCmd
  | closeCmd
  | stopCmd
  | zeroCmd
  | turbosetCmd (confirm : Bool)
  | setSpeedCmd (rpm : ℤ)
  | customCmd (text : String)
deriving DecidableEq

/-- Synchronous outcome of a command method, as observable by the operator
(dialog boxes / return paths). -/
inductive CmdOutcome
  | ok
  | notConnected
  | invalidParameter
  | cancelled
deriving DecidableEq

/-- Combined controller + serial-handler connection state.
`machineState`, `loadValue`, `positionValue` and `ctrlConnected`
(`self.is_connected`) live on `UTMController`; `serConnected`
(`SerialHandler.connected`) and `connOpen` (`self.connection` exists and
`is_open`) live on `SerialHandler`. -/
structure CtrlState where
  machineState : String
  loadValue : ℚ
  positionValue : ℚ
  ctrlConnected : Bool
  serConnected : Bool
  connOpen : Bool
deriving DecidableEq

/-- Predicate `SerialHandler.is_connected` (lines 118-120). -/
def serIsConnected (st : CtrlState) : Bool := st.serConnected && st.connOpen

/-- Method `UTMController.handle_connection_change` (lines 233-241): the connection
callback overwrites `is_connected` and `machine_state` unconditionally. -/
def handleConnectionChange (st : CtrlState) (connected : Bool) : CtrlState :=
  { st with
    ctrlConnected := connected,
    machineState := if connected then "Connected" else "Disconnected" }

/-- Method `SerialHandler.send_command` (lines 122-142): when not connected the
raised exception is caught and `_handle_connection_error` runs (drops the
connection state and notifies the callback with `False`; the reconnection
thread it spawns is modelled by `attemptReconnection` separately).  The
middle component is the list of byte strings written to the transport. -/
def sendCommand (st : CtrlState) (cmd : String) : CtrlState × List String × Bool :=
  if serIsConnected st then (st, [cmd ++ "\n"], true)
  else
    (handleConnectionChange { st with serConnected := false, connOpen := false } false,
      [], false)

/-- The command methods of `UTMController` (`open_command`, `close_command`,
`stop_command`, `zero_command`, `turboset_command`, `send_custom_command`,
lines 267-328 and 379-389) and `UTMControlPanel.set_motor_speed`
(gui_components.py lines 240-254, which validates the RPM range before
delegating to `send_custom_command`).  Returns the new state, the
transport writes performed, and the synchronous outcome. -/
def execCommand : Cmd → CtrlState → CtrlState × List String × CmdOutcome
  | .openCmd, st =>
    if st.ctrlConnected then
      let r := sendCommand st "1"
      ({ r.1 with machineState := "Opening" }, r.2.1, .ok)
    else (st, [], .notConnected)
  | .closeCmd, st =>
    if st.ctrlConnected then
      let r := sendCommand st "2"
      ({ r.1 with machineState := "Closing" }, r.2.1, .ok)
    else (st, [], .notConnected)
  | .stopCmd, st =>
    if st.ctrlConnected then
      let r := sendCommand st "0"
      ({ r.1 with machineState := "Stopped" }, r.2.1, .ok)
    else (st, [], .notConnected)
  | .zeroCmd, st =>
    if st.ctrlConnected then
      let r := sendCommand st "Z"
      (r.1, r.2.1, .ok)
    else (st, [], .notConnected)
  | .turbosetCmd confirm, st =>
    if !st.ctrlConnected then (st, [], .notConnected)
    else if confirm then
      let r := sendCommand st "T"
      ({ r.1 with machineState := "Turboset Running" }, r.2.1, .ok)
    else (st, [], .cancelled)
  | .setSpeedCmd rpm, st =>
    if 1 ≤ rpm ∧ rpm ≤ 200 then
      if serIsConnected st then
        let r := sendCommand st ("S" ++ toString rpm)
        (r.1, r.2.1, .ok)
      else (st, [], .notConnected)
    else (st, [], .invalidParameter)
  | .customCmd text, st =>
    if serIsConnected st then
      let r := sendCommand st text
      (r.1, r.2.1, .ok)
    else (st, [], .notConnected)

/-- A well-formed command intent: `SetSpeed` carries an RPM in the wire
protocol's 1-200 range, every other intent is unconstrained. -/
def validIntent : Cmd → Prop
  | .setSpeedCmd rpm => 1 ≤ rpm ∧ rpm ≤ 200
  | _ => True

instance : (c : Cmd) → Decidable (validIntent c)
  | .openCmd => isTrue trivial
  | .closeCmd => isTrue trivial
  | .stopCmd => isTrue trivial
  | .zeroCmd => isTrue trivial
  | .turbosetCmd _ => isTrue trivial
  | .setSpeedCmd rpm => inferInstanceAs (Decidable (1 ≤ rpm ∧ rpm ≤ 200))
  | .customCmd _ => isTrue trivial

/-- The typed event determined by the branch `handle_serial_data` takes on a
frame (spec vocabulary).  A malformed numeric payload raises `ValueError`
in the source, caught by the handler's `except` with no observable effect;
that branch is reified as `unrecognized`, as is a frame matching no
prefix.  A `BTN:` code outside the button map is silently ignored by
`handle_pcb_button` and reified as `buttonUnknown`. -/
inductive DeviceEvent
  | telemetryLoad (v : ℚ)
  | telemetryPos (v : ℚ)
  | stateReported (label : String)
  | buttonPressed (cmd : Cmd)
  | buttonUnknown (code : String)
  | speedReport (rpm : ℤ)
  | unrecognized (raw : String)
deriving DecidableEq

/-- Prefix test, recursing on the pattern first. -/
def startsWithL : List Char → List Char → Bool
  | [], _ => true
  | t :: ts, ds =>
    match ds with
    | [] => false
    | d :: ds' => t == d && startsWithL ts ds'

/-- Python `data.startswith(tag)`. -/
def hasTag (tag : String) (data : List Char) : Bool :=
  startsWithL tag.toList data

/-- The `button_map` of `handle_pcb_button` (lines 216-221), mapping PCB
codes to the command methods they invoke. -/
def buttonCmd (code : List Char) : Option Cmd :=
  if code = ['1'] then some .openCmd
  else if code = ['2'] then some .closeCmd
  else if code = ['3'] then some .stopCmd
  else if code = ['4'] then some .zeroCmd
  else none

/-- The prefix dispatch of `UTMController.handle_serial_data`
(lines 176-211); every payload is `data.split(':')[1]`. -/
def classify (data : List Char) : DeviceEvent :=
  if hasTag "LOAD:" data then
    match pyParseFloat (colonField1 data) with
    | some v => .telemetryLoad v
    | none => .unrecognized (String.mk data)
  else if hasTag "POS:" data then
    match pyParseFloat (colonField1 data) with
    | some v => .telemetryPos v
    | none => .unrecognized (String.mk data)
  else if hasTag "STATE:" data then .stateReported (String.mk (colonField1 data))
  else if hasTag "BTN:" data then
    match buttonCmd (colonField1 data) with
    | some c => .buttonPressed c
    | none => .buttonUnknown (String.mk (colonField1 data))
  else if hasTag "SPEED:" data then
    match pyParseInt (colonField1 data) with
    | some n => .speedReport n
    | none => .unrecognized (String.mk data)
  else .unrecognized (String.mk data)

/-- State effect of `handle_serial_data` on the controller plus the
transport writes it triggers (a `BTN:` frame runs the mapped command).
The GUI display refreshes and the `add_data_point` call into the plotter
(modelled separately on `PlotterState`) are omitted; a `SPEED:` report
only updates a GUI label. -/
def handleSerialData (st : CtrlState) (data : List Char) : CtrlState × List String :=
  match classify data with
  | .telemetryLoad v => ({ st with loadValue := v }, [])
  | .telemetryPos v => ({ st with positionValue := v }, [])
  | .stateReported label => ({ st with machineState := label }, [])
  | .buttonPressed c =>
    let r := execCommand c st
    (r.1, r.2.1)
  | .buttonUnknown _ => (st, [])
  | .speedReport _ => (st, [])
  | .unrecognized _ => (st, [])

/-! ## Measurement pipeline and material analysis (graph_plotter.py) -/

/-- A Python float as seen by the analysis filter: either a finite value
(modelled exactly as a rational) or one of the non-finite values that
`np.isnan` / `np.isinf` discard. -/
inductive PFloat
  | fin (q : ℚ)
  | nan
  | inf
  | ninf
deriving DecidableEq

/-- Test `not (isnan v or isinf v)`. -/
def PFloat.isFinite : PFloat → Bool
  | .fin _ => true
  | _ => false

/-- The rational value of a finite `PFloat` (0 for the non-finite ones,
which the analysis only ever touches after filtering). -/
def PFloat.val : PFloat → ℚ
  | .fin q => q
  | _ => 0

/-- The data-carrying state of `MaterialTestPlotter`: the six parallel data
lists, the test parameters snapshot, the plotting flag, and the five
analysis result fields (`__init__`, lines 23-47). -/
structure PlotterState where
  isPlotting : Bool
  specimenArea : ℚ
  gaugeLength : ℚ
  timeData : List ℚ
  loadData : List ℚ
  positionData : List ℚ
  stressData : List PFloat
  strainData : List PFloat
  displacementData : List ℚ
  youngsModulus : ℚ
  yieldStrength : ℚ
  ultimateStrength : ℚ
  fractureStrength : ℚ
  elongationAtBreak : ℚ
deriving DecidableEq

/-- Method `MaterialTestPlotter.add_data_point` (lines 539-554): append-only; no
eviction is applied here. -/
def addDataPoint (st : PlotterState) (timestamp load position : ℚ) : PlotterState :=
  if st.isPlotting then
    let stress : ℚ := if st.specimenArea > 0 then load / st.specimenArea else 0
    let strain : ℚ := if st.gaugeLength > 0 then position / st.gaugeLength * 100 else 0
    { st with
      timeData := st.timeData ++ [timestamp],
      loadData := st.loadData ++ [load],
      positionData := st.positionData ++ [position],
      stressData := st.stressData ++ [PFloat.fin stress],
      strainData := st.strainData ++ [PFloat.fin strain],
      displacementData := st.displacementData ++ [position] }
  else st

/-- One iteration of `MaterialTestPlotter._plot_update_loop` (lines
299-342, run while `is_plotting`): appends the controller's current load
and position, then trims every data list to its last `MAX_PLOT_POINTS`
entries when `time_data` has grown past that bound (`l[-max_points:]`).
The GUI redraw scheduled at the end of the iteration is omitted. -/
def plotLoopIter (st : PlotterState) (elapsed load position : ℚ) : PlotterState :=
  let stress : ℚ := if st.specimenArea > 0 then load / st.specimenArea else 0
  let strain : ℚ := if st.gaugeLength > 0 then position / st.gaugeLength * 100 else 0
  let td := st.timeData ++ [elapsed]
  let ld := st.loadData ++ [load]
  let pd := st.positionData ++ [position]
  let sd := st.stressData ++ [PFloat.fin stress]
  let nd := st.strainData ++ [PFloat.fin strain]
  let dd := st.displacementData ++ [position]
  if td.length > MAX_PLOT_POINTS then
    { st with
      timeData := td.drop (td.length - MAX_PLOT_POINTS),
      loadData := ld.drop (ld.length - MAX_PLOT_POINTS),
      positionData := pd.drop (pd.length - MAX_PLOT_POINTS),
      stressData := sd.drop (sd.length - MAX_PLOT_POINTS),
      strainData := nd.drop (nd.length - MAX_PLOT_POINTS),
      displacementData := dd.drop (dd.length - MAX_PLOT_POINTS) }
  else
    { st with
      timeData := td, loadData := ld, positionData := pd,
      stressData := sd, strainData := nd, displacementData := dd }

/-- The `valid_indices` filter of `calculate_material_properties` (lines
378-381): keep index positions where both stress and strain are finite. -/
def validPairs (st : PlotterState) : List (ℚ × ℚ) :=
  ((st.stressData.zip st.strainData).filter
    (fun p => p.1.isFinite && p.2.isFinite)).map (fun p => (p.1.val, p.2.val))

/-- Filtered stress series. -/
def filteredStress (st : PlotterState) : List ℚ := (validPairs st).map Prod.fst

/-- Filtered strain series. -/
def filteredStrain (st : PlotterState) : List ℚ := (validPairs st).map Prod.snd

/-- Value `linear_end` of lines 388-390: `int(len(stress) * 0.2)` truncates, and
for a list length the float product `n * 0.2` truncates to `⌊n / 5⌋`; the
result is raised to `min(len(stress), 5)` when below 5. -/
def codeLinearEnd (n : ℕ) : ℕ :=
  if n / 5 < 5 then min n 5 else n / 5

/-- Modelled from the spec: the linear-region size the specification
prescribes, `max(5, round(0.2 * n))`, written with exact rounding.  Kept
separate from `codeLinearEnd` (the source's truncating computation) so the
two can be compared. -/
def claimLinearEnd (n : ℕ) : ℕ :=
  max 5 (Int.toNat (round ((n : ℚ) / 5)))

/-- Sum of a rational list. -/
def listSum (l : List ℚ) : ℚ := l.foldl (· + ·) 0

/-- The `scipy.stats.linregress(x, y)` slope: least-squares slope
`(n·Σxy − Σx·Σy) / (n·Σx² − (Σx)²)`; `none` models the `ValueError`
scipy raises when all x values are identical (zero denominator). -/
def linregressSlope (x y : List ℚ) : Option ℚ :=
  let n : ℚ := x.length
  let sx := listSum x
  let sy := listSum y
  let sxy := listSum (List.zipWith (· * ·) x y)
  let sxx := listSum (x.map fun v => v * v)
  let den := n * sxx - sx * sx
  if den = 0 then none else some ((n * sxy - sx * sy) / den)

/-- Lines 395-399: modulus from the linear region — `slope * 1000` when the
region has at least two points, else 0; `none` propagates scipy's
constant-x failure, which aborts the whole calculation. -/
def youngsFromRegion (strainR stressR : List ℚ) : Option ℚ :=
  if 2 ≤ stressR.length then
    (linregressSlope strainR stressR).map (fun s => s * 1000)
  else some 0

/-- Maximum (`np.max`) over a rational list (only applied to non-empty lists). -/
def maxListQ : List ℚ → ℚ
  | [] => 0
  | h :: t => t.foldl max h

/-- Outcome of an analysis request: `insufficientData` is the
"Insufficient Data" early return (fewer than 10 samples), `invalidData`
the "Invalid Data" early return (fewer than 5 valid samples), `calcError`
the `except` branch (scipy failure). -/
inductive AnalysisOutcome
  | ok
  | insufficientData
  | invalidData
  | calcError
deriving DecidableEq

/-- Method `MaterialTestPlotter.calculate_material_properties` (lines 367-429).
On the failure paths the five result fields are untouched; on success all
five are assigned.  The 0.2%-offset yield search (lines 401-411) finds the
first index where stress exceeds the offset line
`youngs_modulus * (strain + 0.2) / 1000`. -/
def calculateMaterialProperties (st : PlotterState) : PlotterState × AnalysisOutcome :=
  if st.stressData.length < 10 ∨ st.strainData.length < 10 then
    (st, .insufficientData)
  else
    let stress := filteredStress st
    let strain := filteredStrain st
    if stress.length < 5 then (st, .invalidData)
    else
      match youngsFromRegion (strain.take (codeLinearEnd stress.length))
          (stress.take (codeLinearEnd stress.length)) with
      | none => (st, .calcError)
      | some ym =>
        let diffs := List.zipWith (fun s e => s - ym * (e + 1 / 5) / 1000) stress strain
        let yieldS :=
          match diffs.findIdx? (fun d => decide (0 < d)) with
          | some i => stress.getD i 0
          | none => 0
        ({ st with
          youngsModulus := ym,
          yieldStrength := yieldS,
          ultimateStrength := maxListQ stress,
          fractureStrength := stress.getLastD 0,
          elongationAtBreak := strain.getLastD 0 }, .ok)

/-! ## Safety monitor (utils.py, `SafetyMonitor`, lines 186-219) -/

/-- The kind of safety breach; the source builds a message string for
each, abstracted here to its kind. -/
inductive SafetyViolation
  | loadExceeded
  | positionExceededMax
  | positionBelowMin
deriving DecidableEq

/-- Defaults of `SafetyMonitor.init` (line 189); callbacks are identified
by an index. -/
structure SafetyMonitor where
  maxLoad : ℚ := 10000
  maxPosition : ℚ := 100
  minPosition : ℚ := -5
  safetyCallbacks : List ℕ := []
deriving DecidableEq

/-- Method `SafetyMonitor.check_safety_limits` (lines 199-219): the violations
found in source order, the (callback, violations) deliveries performed,
and the boolean `len(violations) == 0` return value. -/
def checkSafetyLimits (m : SafetyMonitor) (load position : ℚ) :
    List SafetyViolation × List (ℕ × List SafetyViolation) × Bool :=
  let violations :=
    (if |load| > m.maxLoad then [SafetyViolation.loadExceeded] else []) ++
      (if position > m.maxPosition then [SafetyViolation.positionExceededMax] else []) ++
      (if position < m.minPosition then [SafetyViolation.positionBelowMin] else [])
  let delivered :=
    if violations.isEmpty then []
    else m.safetyCallbacks.map (fun c => (c, violations))
  (violations, delivered, violations.length == 0)

/-- Plotter, monitor, and the cumulative record of safety-callback
deliveries, combined so the recording path and the safety checker can be
compared. -/
structure MonitoredSystem where
  plotter : PlotterState
  monitor : SafetyMonitor
  delivered : List (ℕ × List SafetyViolation)
deriving DecidableEq

/-- A sample arriving over serial while plotting: the recording call site
(`handle_serial_data` lines 202-206) invokes only
`graph_plotter.add_data_point`; no safety check runs on this path
(`check_safety_limits` has no caller anywhere in the repository), so the
monitor and the delivery record are untouched. -/
def recordSample (sys : MonitoredSystem) (timestamp load position : ℚ) :
    MonitoredSystem :=
  { sys with plotter := addDataPoint sys.plotter timestamp load position }

/-! ## Reconnection supervisor (serial_handler.py, lines 210-256) -/

/-- Serial-handler connection state as seen by the reconnection loop. -/
structure SHState where
  connected : Bool
  port : Option String
  baudrate : ℕ
deriving DecidableEq

/-- Observable events of the reconnection loop: the fixed sleep before an
attempt, and the attempt itself with its outcome. -/
inductive ReconnEvent
  | delay (seconds : ℕ)
  | attemptTry (k : ℕ) (success : Bool)
deriving DecidableEq

/-- The `while attempt < max_attempts and not self.connected` loop of
`_attempt_reconnection` (lines 243-254): recursion on the remaining
attempt budget; `connectOk k` is the environment's answer to the k-th
`self.connect(self.port, self.baudrate)` call. -/
def reconnLoop (connectOk : ℕ → Bool) : ℕ → ℕ → Bool → List ReconnEvent × Bool
  | 0, _, connected => ([], connected)
  | _ + 1, _, true => ([], true)
  | r + 1, attempt, false =>
    let a := attempt + 1
    let ok := connectOk a
    let rest := reconnLoop connectOk r a ok
    (ReconnEvent.delay 2 :: ReconnEvent.attemptTry a ok :: rest.1, rest.2)

/-- Method `SerialHandler._attempt_reconnection` (lines 235-256): returns
immediately when no port was ever configured, otherwise runs the bounded
retry loop with `max_attempts = 3`; the function then returns and nothing
further is scheduled. -/
def attemptReconnection (connectOk : ℕ → Bool) (st : SHState) :
    SHState × List ReconnEvent :=
  match st.port with
  | none => (st, [])
  | some _ =>
    let r := reconnLoop connectOk RECONNECT_ATTEMPTS 0 st.connected
    ({ st with connected := r.2 }, r.1)

/-- Whether a reconnection event is a connect attempt. -/
def isAttemptEvent : ReconnEvent → Bool
  | .attemptTry _ _ => true
  | _ => false

/-- Number of connect attempts in a trace. -/
def countAttempts (evs : List ReconnEvent) : ℕ :=
  (evs.filter isAttemptEvent).length

/-! ## Concrete states used by witnesses and counterexamples -/

/-- State of `MaterialTestPlotter` right after construction (defaults `specimen_area
= 1.0`, `gauge_length = 25.0`) with plotting started by the operator. -/
def initPlot : PlotterState where
  isPlotting := true
  specimenArea := 1
  gaugeLength := 25
  timeData := []
  loadData := []
  positionData := []
  stressData := []
  strainData := []
  displacementData := []
  youngsModulus := 0
  yieldStrength := 0
  ultimateStrength := 0
  fractureStrength := 0
  elongationAtBreak := 0

/-- Record the sample (t=0, load=0, position=0) n times in a row. -/
def addNPoints : ℕ → PlotterState → PlotterState
  | 0, st => st
  | n + 1, st => addNPoints n (addDataPoint st 0 0 0)

/-- Ten recorded samples of which six have non-finite stress: the
filtered series has only four entries. -/
def stFourValid : PlotterState :=
  { initPlot with
    stressData := [PFloat.nan, PFloat.nan, PFloat.nan, PFloat.inf, PFloat.inf,
      PFloat.ninf, PFloat.fin 1, PFloat.fin 2, PFloat.fin 3, PFloat.fin 4],
    strainData := [PFloat.fin 0, PFloat.fin 1, PFloat.fin 2, PFloat.fin 3,
      PFloat.fin 4, PFloat.fin 5, PFloat.fin 6, PFloat.fin 7, PFloat.fin 8,
      PFloat.fin 9] }

/-- A series of 28 finite samples: stress equals strain except at index 5, where it
jumps to 1000, so the slope over the first 5 samples (1) differs from the
slope over the first 6. -/
def stRegion28 : PlotterState :=
  { initPlot with
    stressData := (List.range 28).map
      (fun i => PFloat.fin (if i = 5 then 1000 else (i : ℚ))),
    strainData := (List.range 28).map (fun i => PFloat.fin (i : ℚ)) }

/-- Ten finite samples on the exact line stress = 2·strain. -/
def stLinear10 : PlotterState :=
  { initPlot with
    stressData := (List.range 10).map (fun i => PFloat.fin (2 * (i : ℚ))),
    strainData := (List.range 10).map (fun i => PFloat.fin (i : ℚ)) }

/-- Plotter with recording stopped. -/
def stNoPlot : PlotterState := { initPlot with isPlotting := false }

/-- Plotter recording with degenerate specimen geometry. -/
def stBadGeom : PlotterState :=
  { initPlot with specimenArea := -1, gaugeLength := 0 }

/-- Fully disconnected controller/serial state. -/
def stDisconnected : CtrlState where
  machineState := "Disconnected"
  loadValue := 0
  positionValue := 0
  ctrlConnected := false
  serConnected := false
  connOpen := false

/-- Fully connected controller/serial state. -/
def stConnectedCtrl : CtrlState where
  machineState := "Connected"
  loadValue := 0
  positionValue := 0
  ctrlConnected := true
  serConnected := true
  connOpen := true

/-- A monitored system: plotting active, default safety limits, one
registered safety callback, nothing delivered yet. -/
def sysMonitored : MonitoredSystem where
  plotter := initPlot
  monitor := { safetyCallbacks := [0] }
  delivered := []

/-- Serial handler after a connection error, with a last-known port. -/
def shDisconnected : SHState where
  connected := false
  port := some "COM3"
  baudrate := 9600

end UTM

namespace UTM

theorem isPySpace_nl : isPySpace '\n' = true := by decide

theorem rawSplitNL_spec (buf : List Char) :
    (rawSplitNL buf).1.flatten ++ (rawSplitNL buf).2 = removeNL buf ∧
      (∀ l ∈ (rawSplitNL buf).1, '\n' ∉ l) ∧ '\n' ∉ (rawSplitNL buf).2 := by
  induction buf with
  | nil => simp [rawSplitNL, removeNL]
  | cons c rest ih =>
    obtain ⟨ihj, ihl, ihf⟩ := ih
    by_cases hc : c = '\n'
    · subst hc
      simp only [rawSplitNL, if_pos rfl]
      refine ⟨?_, ?_, ihf⟩
      · simpa [removeNL] using ihj
      · intro l hl
        rcases List.mem_cons.mp hl with h | h
        · subst h; simp
        · exact ihl l h
    · simp only [rawSplitNL, if_neg hc]
      rcases hr : (rawSplitNL rest).1 with _ | ⟨l, ls⟩
      · rw [hr] at ihj ihl
        refine ⟨?_, by simp, ?_⟩
        · simpa [removeNL, hc] using ihj
        · intro hmem
          rcases List.mem_cons.mp hmem with h | h
          · exact hc h.symm
          · exact ihf h
      · rw [hr] at ihj ihl
        refine ⟨?_, ?_, ihf⟩
        · simpa [removeNL, hc] using ihj
        · intro m hm
          rcases List.mem_cons.mp hm with h | h
          · subst h
            intro hmem
            rcases List.mem_cons.mp hmem with h | h
            · exact hc h.symm
            · exact ihl l (List.mem_cons_self _ _) h
          · exact ihl m (List.mem_cons_of_mem _ h)

theorem dropWhile_noSpace {l : List Char} (h : NoSpace l) :
    l.dropWhile isPySpace = l := by
  cases l with
  | nil => rfl
  | cons c t =>
    rw [List.dropWhile_cons, h c (List.mem_cons_self _ _)]
    simp

theorem pyStrip_noSpace {l : List Char} (h : NoSpace l) : pyStrip l = l := by
  have h' : NoSpace l.reverse := fun c hc => h c (List.mem_reverse.mp hc)
  unfold pyStrip
  rw [dropWhile_noSpace h, dropWhile_noSpace h', List.reverse_reverse]

theorem flatten_filter_nonempty (ls : List (List Char)) :
    ((ls.filter (fun l => !l.isEmpty)).flatten : List Char) = ls.flatten := by
  induction ls with
  | nil => rfl
  | cons l t ih =>
    cases hl : l.isEmpty with
    | true =>
      have : l = [] := List.isEmpty_iff.mp hl
      subst this
      simpa using ih
    | false => simp [List.filter_cons, hl, ih]

theorem map_pyStrip_id {ls : List (List Char)} (h : ∀ l ∈ ls, NoSpace l) :
    ls.map pyStrip = ls := by
  induction ls with
  | nil => rfl
  | cons l t ih =>
    rw [List.map_cons, pyStrip_noSpace (h l (List.mem_cons_self _ _)),
      ih fun m hm => h m (List.mem_cons_of_mem _ hm)]

theorem mem_removeNL {c : Char} {l : List Char} (h : c ∈ removeNL l) : c ∈ l := by
  exact List.mem_of_mem_filter h

theorem splitCompleteLines_def (buf : List Char) :
    splitCompleteLines buf =
      (((rawSplitNL buf).1.map pyStrip).filter (fun l => !l.isEmpty),
        (rawSplitNL buf).2) := rfl

theorem splitCompleteLines_spec {buf : List Char} (hclean : CleanChunk buf) :
    (splitCompleteLines buf).1.flatten ++ (splitCompleteLines buf).2 =
        removeNL buf ∧
      (∀ f ∈ (splitCompleteLines buf).1, '\n' ∉ f) ∧
      NoSpace (splitCompleteLines buf).2 := by
  obtain ⟨hj, hl, hf⟩ := rawSplitNL_spec buf
  have hsub : ∀ l ∈ (rawSplitNL buf).1, NoSpace l := by
    intro l hml c hcl
    have hcj : c ∈ ((rawSplitNL buf).1.flatten : List Char) :=
      List.mem_flatten.mpr ⟨l, hml, hcl⟩
    have hcb : c ∈ buf := by
      apply mem_removeNL
      rw [← hj]; exact List.mem_append_left _ hcj
    rcases hclean c hcb with h | h
    · exact absurd (h ▸ hcl) (hl l hml)
    · exact h
  have hmap : (rawSplitNL buf).1.map pyStrip = (rawSplitNL buf).1 :=
    map_pyStrip_id hsub
  have hfin : NoSpace (rawSplitNL buf).2 := by
    intro c hcf
    have hcb : c ∈ buf := by
      apply mem_removeNL
      rw [← hj]; exact List.mem_append_right _ hcf
    rcases hclean c hcb with h | h
    · exact absurd (h ▸ hcf) hf
    · exact h
  rw [splitCompleteLines_def, hmap]
  refine ⟨?_, ?_, hfin⟩
  · rw [flatten_filter_nonempty, hj]
  · intro f hmf
    exact hl f (List.mem_of_mem_filter hmf)

theorem removeNL_noSpace {l : List Char} (h : NoSpace l) : removeNL l = l := by
  unfold removeNL
  apply List.filter_eq_self.mpr
  intro c hc
  have hne : c ≠ '\n' := by
    intro hcn
    have h2 := h c hc
    rw [hcn, isPySpace_nl] at h2
    exact Bool.noConfusion h2
  simpa using hne

theorem removeNL_append (a b : List Char) :
    removeNL (a ++ b) = removeNL a ++ removeNL b := by
  unfold removeNL; rw [List.filter_append]

theorem feedStepComplete_eq (buf : List Char) (acc : List (List Char))
    (ch : List Char) :
    feedStepComplete (buf, acc) ch =
      ((splitCompleteLines (buf ++ ch)).2,
        acc ++ (splitCompleteLines (buf ++ ch)).1) := rfl

theorem feedComplete_go (chunks : List (List Char)) :
    ∀ (buf : List Char) (acc : List (List Char)),
      (∀ ch ∈ chunks, CleanChunk ch) → NoSpace buf → (∀ f ∈ acc, '\n' ∉ f) →
      (feedCompleteFrom (buf, acc) chunks).2.flatten ++
          (feedCompleteFrom (buf, acc) chunks).1 =
        acc.flatten ++ buf ++ removeNL chunks.flatten ∧
      ∀ f ∈ (feedCompleteFrom (buf, acc) chunks).2, '\n' ∉ f := by
  induction chunks with
  | nil =>
    intro buf acc _ _ hacc
    constructor
    · simp [feedCompleteFrom, removeNL]
    · simpa [feedCompleteFrom] using hacc
  | cons ch rest ih =>
    intro buf acc hcl hbuf hacc
    have hch : CleanChunk ch := hcl ch (List.mem_cons_self _ _)
    have hbc : CleanChunk (buf ++ ch) := by
      intro c hc
      rcases List.mem_append.mp hc with h | h
      · exact Or.inr (hbuf c h)
      · exact hch c h
    obtain ⟨hj, hfr, hfin⟩ := splitCompleteLines_spec hbc
    have hstep : (splitCompleteLines (buf ++ ch)).1.flatten ++
        (splitCompleteLines (buf ++ ch)).2 = buf ++ removeNL ch := by
      rw [hj, removeNL_append, removeNL_noSpace hbuf]
    have hacc' : ∀ f ∈ acc ++ (splitCompleteLines (buf ++ ch)).1, '\n' ∉ f := by
      intro f hf
      rcases List.mem_append.mp hf with h | h
      · exact hacc f h
      · exact hfr f h
    obtain ⟨ihj, ihf⟩ :=
      ih (splitCompleteLines (buf ++ ch)).2
        (acc ++ (splitCompleteLines (buf ++ ch)).1)
        (fun m hm => hcl m (List.mem_cons_of_mem _ hm)) hfin hacc'
    have hunf : feedCompleteFrom (buf, acc) (ch :: rest) =
        feedCompleteFrom
          ((splitCompleteLines (buf ++ ch)).2,
            acc ++ (splitCompleteLines (buf ++ ch)).1) rest := by
      simp [feedCompleteFrom, List.foldl_cons, feedStepComplete_eq]
    rw [hunf]
    refine ⟨?_, ihf⟩
    rw [ihj, List.flatten_append, List.flatten_cons, removeNL_append]
    simp only [List.append_assoc]
    congr 1
    rw [← List.append_assoc, hstep, List.append_assoc]

/-! ## Claim theorems -/

/-- C10: every connectivity notification overwrites `MachineState`
unconditionally: on a connection-established event it becomes
"Connected" and on a connection-lost event "Disconnected", whatever the
previous machine state (an in-progress Opening or Turboset Running is
discarded). -/
theorem c10_connection_overwrites_state (st : CtrlState) (b : Bool) :
    (handleConnectionChange st b).machineState =
        (if b then "Connected" else "Disconnected") ∧
      (handleConnectionChange st b).ctrlConnected = b ∧
      ∀ s : String,
        handleConnectionChange { st with machineState := s } b =
          handleConnectionChange st b :=
  ⟨rfl, rfl, fun _ => rfl⟩

/-- C4: every well-formed operator command intent (Open, Close, Stop, Zero,
Turboset, SetSpeed, Custom) issued while neither the controller flag nor
the serial handler reports a connection fails with NotConnected, leaves
the state untouched and performs zero transport writes. -/
theorem c4_rejected_commands (st : CtrlState) (c : Cmd)
    (hctrl : st.ctrlConnected = false) (hser : serIsConnected st = false)
    (hv : validIntent c) :
    execCommand c st = (st, [], CmdOutcome.notConnected) := by
  cases c with
  | openCmd => simp [execCommand, hctrl]
  | closeCmd => simp [execCommand, hctrl]
  | stopCmd => simp [execCommand, hctrl]
  | zeroCmd => simp [execCommand, hctrl]
  | turbosetCmd confirm => simp [execCommand, hctrl]
  | setSpeedCmd rpm =>
    unfold validIntent at hv
    simp [execCommand, hv, hser]
  | customCmd text => simp [execCommand, hser]

/-- C4 witness: a SetSpeed intent with a valid RPM issued while fully
disconnected is rejected with NotConnected and writes nothing. -/
theorem c4_rejected_commands_witness :
    execCommand (Cmd.setSpeedCmd 10) stDisconnected =
      (stDisconnected, [], CmdOutcome.notConnected) :=
  c4_rejected_commands stDisconnected (Cmd.setSpeedCmd 10) rfl rfl (by decide)

/-- C8: while recording, `add_data_point` derives stress as load divided by
specimen area with 0 whenever the area is not positive (so the division is
never evaluated on a non-positive area), and strain as 100 · position /
gauge length with 0 whenever the gauge length is not positive; a sample
arriving while recording is stopped is dropped without error and without
modifying any series. -/
theorem c8_record_guards (st : PlotterState) (t load position : ℚ) :
    (st.isPlotting = false → addDataPoint st t load position = st) ∧
      (st.isPlotting = true →
        (addDataPoint st t load position).stressData =
            st.stressData ++
              [PFloat.fin (if 0 < st.specimenArea then load / st.specimenArea else 0)] ∧
          (addDataPoint st t load position).strainData =
            st.strainData ++
              [PFloat.fin (if 0 < st.gaugeLength then 100 * position / st.gaugeLength else 0)]) := by
  constructor
  · intro h
    simp [addDataPoint, h]
  · intro h
    have harith : position / st.gaugeLength * 100 = 100 * position / st.gaugeLength := by
      ring
    constructor
    · simp [addDataPoint, h]
    · by_cases hg : (0 : ℚ) < st.gaugeLength
      · simp [addDataPoint, h, hg, harith]
      · simp [addDataPoint, h, hg]

/-- C8 witness: a sample is dropped while stopped; with non-positive
geometry the recorded stress and strain are both 0. -/
theorem c8_record_guards_witness :
    addDataPoint stNoPlot 0 5 7 = stNoPlot ∧
      (addDataPoint stBadGeom 0 5 7).stressData = [PFloat.fin 0] ∧
      (addDataPoint stBadGeom 0 5 7).strainData = [PFloat.fin 0] := by
  refine ⟨(c8_record_guards stNoPlot 0 5 7).1 rfl, ?_, ?_⟩
  · rw [((c8_record_guards stBadGeom 0 5 7).2 rfl).1]
    decide
  · rw [((c8_record_guards stBadGeom 0 5 7).2 rfl).2]
    decide

/-- C9 counterexample: recording an over-limit sample (load 15000 against
the default max load 10000, with a registered safety callback) delivers
nothing to any safety observer, although `check_safety_limits` on the same
values would report the load breach — violations are not detected on
recorded samples, because the recording path never invokes the monitor. -/
theorem c9_no_check_on_record :
    sysMonitored.monitor.maxLoad = 10000 ∧
      sysMonitored.monitor.safetyCallbacks = [0] ∧
      (recordSample sysMonitored 0 15000 0).delivered = [] ∧
      (checkSafetyLimits sysMonitored.monitor 15000 0).1 =
        [SafetyViolation.loadExceeded] := by
  decide

/-- C9 (amended): with max load 10000, `check_safety_limits(15000, 0)`
reports exactly one violation, describing the load breach, and
`check_safety_limits(0, 0)` reports none (returning True); whenever the
checker is invoked, every reported violation list is delivered to each
registered observer callback; but the recording path performs no safety
check, leaving the monitor and the delivery record untouched. -/
theorem c9_safety_monitor :
    (∀ cbs : List ℕ,
        (checkSafetyLimits { safetyCallbacks := cbs } 15000 0).1 =
            [SafetyViolation.loadExceeded] ∧
          (checkSafetyLimits { safetyCallbacks := cbs } 0 0).1 = [] ∧
          (checkSafetyLimits { safetyCallbacks := cbs } 0 0).2.2 = true) ∧
      (∀ (m : SafetyMonitor) (load position : ℚ), ∀ cb ∈ m.safetyCallbacks,
        (checkSafetyLimits m load position).1 ≠ [] →
          (cb, (checkSafetyLimits m load position).1) ∈
            (checkSafetyLimits m load position).2.1) ∧
      ∀ (sys : MonitoredSystem) (t load position : ℚ),
        (recordSample sys t load position).delivered = sys.delivered ∧
          (recordSample sys t load position).monitor = sys.monitor := by
  refine ⟨fun cbs => ⟨?_, ?_, ?_⟩, ?_, fun sys t load position => ⟨rfl, rfl⟩⟩
  · simp [checkSafetyLimits]
    norm_num
  · simp [checkSafetyLimits]
  · simp [checkSafetyLimits]
  · intro m load position cb hcb hne
    simp only [checkSafetyLimits] at hne ⊢
    rw [if_neg (fun h => hne (List.isEmpty_iff.mp h))]
    exact List.mem_map.mpr ⟨cb, hcb, rfl⟩

theorem countAttempts_reconnLoop (f : ℕ → Bool) :
    ∀ (r a : ℕ) (c : Bool), countAttempts (reconnLoop f r a c).1 ≤ r := by
  intro r
  induction r with
  | zero => intro a c; simp [reconnLoop, countAttempts]
  | succ n ih =>
    intro a c
    cases c with
    | true => simp [reconnLoop, countAttempts]
    | false =>
      have h := ih (a + 1) (f (a + 1))
      simp only [reconnLoop, countAttempts, List.filter_cons, isAttemptEvent] at h ⊢
      simpa using Nat.succ_le_succ h

/-- C7: after a connection failure the supervisor performs at most
RECONNECT_ATTEMPTS (3) reconnect attempts; with a configuration that
always fails to open, the trace is exactly three attempts, each preceded
by the fixed 2-second delay, the state settles disconnected, and the
supervisor schedules nothing further (the trace is complete) — a new
attempt requires an explicit connect. -/
theorem c7_reconnection_bounded (st : SHState) (p : String)
    (hc : st.connected = false) (hp : st.port = some p) :
    (∀ f : ℕ → Bool,
        countAttempts (attemptReconnection f st).2 ≤ RECONNECT_ATTEMPTS) ∧
      attemptReconnection (fun _ => false) st =
        (st, [ReconnEvent.delay 2, ReconnEvent.attemptTry 1 false,
          ReconnEvent.delay 2, ReconnEvent.attemptTry 2 false,
          ReconnEvent.delay 2, ReconnEvent.attemptTry 3 false]) ∧
      (attemptReconnection (fun _ => false) st).1.connected = false := by
  obtain ⟨c, port, bd⟩ := st
  simp only at hc hp
  subst hc hp
  refine ⟨fun f => ?_, rfl, rfl⟩
  simpa [attemptReconnection] using countAttempts_reconnLoop f RECONNECT_ATTEMPTS 0 false

/-- C7 witness: the bounded-retry trace from a concrete disconnected
handler state with a remembered port. -/
theorem c7_reconnection_bounded_witness :
    shDisconnected.connected = false ∧
      shDisconnected.port = some "COM3" ∧
      countAttempts (attemptReconnection (fun _ => true) shDisconnected).2 ≤
        RECONNECT_ATTEMPTS ∧
      attemptReconnection (fun _ => false) shDisconnected =
        (shDisconnected, [ReconnEvent.delay 2, ReconnEvent.attemptTry 1 false,
          ReconnEvent.delay 2, ReconnEvent.attemptTry 2 false,
          ReconnEvent.delay 2, ReconnEvent.attemptTry 3 false]) :=
  ⟨rfl, rfl,
    (c7_reconnection_bounded shDisconnected "COM3" rfl rfl).1 (fun _ => true),
    (c7_reconnection_bounded shDisconnected "COM3" rfl rfl).2.1⟩

/-- C5 counterexample: ten recorded samples of which only four survive the
non-finite filter make the analysis fail through the "Invalid Data" early
return, which is a distinct failure kind from the "Insufficient Data"
return the claim prescribes for this case. -/
theorem c5_invalid_not_insufficient :
    calculateMaterialProperties stFourValid = (stFourValid, AnalysisOutcome.invalidData) ∧
      AnalysisOutcome.invalidData ≠ AnalysisOutcome.insufficientData := by
  decide

/-- C5 (amended): the analysis fails with the Insufficient Data return when
the series has fewer than 10 samples, and with the Invalid Data return
(the spec's InvalidSeries) when fewer than 5 samples survive the
non-finite filter; on every request either all five material properties
are (re)assigned together or the call fails leaving the state — in
particular every result field — untouched. -/
theorem c5_analysis_guards :
    (∀ st : PlotterState,
        st.stressData.length < 10 ∨ st.strainData.length < 10 →
          calculateMaterialProperties st = (st, AnalysisOutcome.insufficientData)) ∧
      (∀ st : PlotterState,
        ¬(st.stressData.length < 10 ∨ st.strainData.length < 10) →
          (filteredStress st).length < 5 →
          calculateMaterialProperties st = (st, AnalysisOutcome.invalidData)) ∧
      (∀ st : PlotterState,
        (calculateMaterialProperties st).2 ≠ AnalysisOutcome.ok →
          (calculateMaterialProperties st).1 = st) ∧
      ∀ st : PlotterState,
        (calculateMaterialProperties st).2 = AnalysisOutcome.ok →
          ∃ ym ys us fs el,
            (calculateMaterialProperties st).1 =
              { st with
                youngsModulus := ym, yieldStrength := ys, ultimateStrength := us,
                fractureStrength := fs, elongationAtBreak := el } := by
  refine ⟨fun st h => ?_, fun st h1 h2 => ?_, fun st => ?_, fun st => ?_⟩
  · simp [calculateMaterialProperties, h]
  · simp [calculateMaterialProperties, h1, h2]
  · by_cases h1 : st.stressData.length < 10 ∨ st.strainData.length < 10
    · intro _; simp [calculateMaterialProperties, h1]
    · by_cases h2 : (filteredStress st).length < 5
      · intro _; simp [calculateMaterialProperties, h1, h2]
      · rcases hy : youngsFromRegion
            ((filteredStrain st).take (codeLinearEnd (filteredStress st).length))
            ((filteredStress st).take (codeLinearEnd (filteredStress st).length))
          with _ | ym
        · intro _; simp [calculateMaterialProperties, h1, h2, hy]
        · intro hok
          exfalso
          apply hok
          simp [calculateMaterialProperties, h1, h2, hy]
  · by_cases h1 : st.stressData.length < 10 ∨ st.strainData.length < 10
    · intro hok
      exfalso
      simp [calculateMaterialProperties, h1] at hok
    · by_cases h2 : (filteredStress st).length < 5
      · intro hok
        exfalso
        simp [calculateMaterialProperties, h1, h2] at hok
      · rcases hy : youngsFromRegion
            ((filteredStrain st).take (codeLinearEnd (filteredStress st).length))
            ((filteredStress st).take (codeLinearEnd (filteredStress st).length))
          with _ | ym
        · intro hok
          exfalso
          simp [calculateMaterialProperties, h1, h2, hy] at hok
        · intro _
          simp only [calculateMaterialProperties, h1, h2, hy, if_false,
            reduceIte]
          exact ⟨_, _, _, _, _, rfl⟩

unseal Rat.add Rat.mul Rat.inv Rat.sub in
/-- C5 witness: the Insufficient Data guard on the empty series, the
untouched-state clause on a failing series, and the all-assigned clause on
a complete series. -/
theorem c5_analysis_guards_witness :
    (initPlot.stressData.length < 10 ∨ initPlot.strainData.length < 10) ∧
      calculateMaterialProperties initPlot = (initPlot, AnalysisOutcome.insufficientData) ∧
      ((calculateMaterialProperties stFourValid).2 ≠ AnalysisOutcome.ok ∧
        (calculateMaterialProperties stFourValid).1 = stFourValid) ∧
      ((calculateMaterialProperties stLinear10).2 = AnalysisOutcome.ok ∧
        ∃ ym ys us fs el,
          (calculateMaterialProperties stLinear10).1 =
            { stLinear10 with
              youngsModulus := ym, yieldStrength := ys, ultimateStrength := us,
              fractureStrength := fs, elongationAtBreak := el }) :=
  ⟨by decide, c5_analysis_guards.1 initPlot (by decide),
    ⟨by decide, c5_analysis_guards.2.2.1 stFourValid (by decide)⟩,
    ⟨by decide, c5_analysis_guards.2.2.2 stLinear10 (by decide)⟩⟩

unseal Rat.add Rat.mul Rat.inv Rat.sub in
/-- C6 counterexample: on 28 filtered samples the source truncates
`int(28 * 0.2) = 5` while the claim's `max(5, round(0.2 · 28)) = 6`; on a
series whose first five points have slope 1 but whose sixth jumps, the
computed modulus is 1000 (slope 1 over the first 5 samples), which differs
from 1000 times the least-squares slope over the claim's 6-sample
region. -/
theorem c6_region_truncation :
    codeLinearEnd 28 = 5 ∧ claimLinearEnd 28 = 6 ∧
      (calculateMaterialProperties stRegion28).2 = AnalysisOutcome.ok ∧
      (calculateMaterialProperties stRegion28).1.youngsModulus = 1000 ∧
      (linregressSlope ((filteredStrain stRegion28).take (claimLinearEnd 28))
          ((filteredStress stRegion28).take (claimLinearEnd 28))).map
          (fun s => s * 1000) ≠
        some 1000 := by
  decide

/-- C6 (amended): for a filtered series of n ≥ 5 samples the linear region
used for the modulus fit consists of exactly the first
`max(5, ⌊0.2 · n⌋)` samples (`int` truncates; the claim's `round` does
not hold); the Young's modulus is the least-squares slope of stress
against strain over that region multiplied by 1000; and if the region has
fewer than 2 points the modulus is 0. -/
theorem c6_linear_region :
    (∀ n : ℕ, 5 ≤ n → codeLinearEnd n = max 5 (n / 5)) ∧
      (∀ (st : PlotterState) (ym : ℚ),
        ¬(st.stressData.length < 10 ∨ st.strainData.length < 10) →
          ¬((filteredStress st).length < 5) →
          youngsFromRegion
              ((filteredStrain st).take (codeLinearEnd (filteredStress st).length))
              ((filteredStress st).take (codeLinearEnd (filteredStress st).length)) =
            some ym →
          (calculateMaterialProperties st).2 = AnalysisOutcome.ok ∧
            (calculateMaterialProperties st).1.youngsModulus = ym) ∧
      (∀ (strainR stressR : List ℚ) (m : ℚ), 2 ≤ stressR.length →
        linregressSlope strainR stressR = some m →
          youngsFromRegion strainR stressR = some (m * 1000)) ∧
      ∀ strainR stressR : List ℚ, stressR.length < 2 →
        youngsFromRegion strainR stressR = some 0 := by
  refine ⟨fun n h => ?_, fun st ym h1 h2 hy => ?_, fun le ls m h2 hm => ?_,
    fun le ls h => ?_⟩
  · unfold codeLinearEnd
    split <;> omega
  · constructor <;> simp [calculateMaterialProperties, h1, h2, hy]
  · unfold youngsFromRegion
    rw [if_pos h2, hm]
    rfl
  · unfold youngsFromRegion
    rw [if_neg (by omega)]

unseal Rat.add Rat.mul Rat.inv Rat.sub in
/-- C6 witness: the region size at n = 12, the modulus relation on an
exactly linear 10-sample series (slope 2, modulus 2000), the
slope-to-modulus conversion, and the degenerate-region fallback. -/
theorem c6_linear_region_witness :
    (5 ≤ 12 ∧ codeLinearEnd 12 = max 5 (12 / 5)) ∧
      ((calculateMaterialProperties stLinear10).2 = AnalysisOutcome.ok ∧
        (calculateMaterialProperties stLinear10).1.youngsModulus = 2000) ∧
      youngsFromRegion [0, 1] [0, 2] = some (2 * 1000) ∧
      youngsFromRegion [] [] = some 0 :=
  ⟨⟨by decide, c6_linear_region.1 12 (by decide)⟩,
    c6_linear_region.2.1 stLinear10 2000 (by decide) (by decide) (by decide),
    c6_linear_region.2.2.1 [0, 1] [0, 2] 2 (by decide) (by decide),
    c6_linear_region.2.2.2 [] [] (by decide)⟩

theorem addNPoints_spec (n : ℕ) :
    ∀ st : PlotterState, st.isPlotting = true →
      (addNPoints n st).stressData.length = st.stressData.length + n ∧
        (addNPoints n st).isPlotting = true := by
  induction n with
  | zero => intro st h; simp [addNPoints, h]
  | succ k ih =>
    intro st h
    have hstep : (addDataPoint st 0 0 0).isPlotting = true ∧
        (addDataPoint st 0 0 0).stressData.length = st.stressData.length + 1 := by
      simp [addDataPoint, h]
    obtain ⟨ih1, ih2⟩ := ih (addDataPoint st 0 0 0) hstep.1
    refine ⟨?_, ih2⟩
    rw [show addNPoints (k + 1) st = addNPoints k (addDataPoint st 0 0 0) from rfl,
      ih1, hstep.2]
    omega

/-- C1 counterexample: recording MAX_PLOT_POINTS + 1 samples through
`add_data_point` leaves the series holding 1001 entries — the capacity
bound does not hold after inserts on this path, because `add_data_point`
never evicts. -/
theorem c1_capacity_exceeded :
    MAX_PLOT_POINTS <
      (addNPoints (MAX_PLOT_POINTS + 1) initPlot).stressData.length := by
  rw [(addNPoints_spec (MAX_PLOT_POINTS + 1) initPlot rfl).1]
  decide

/-- C1 (amended): eviction is performed by the plot-update loop, not by
`add_data_point`: after any loop iteration the series holds at most
MAX_PLOT_POINTS entries, and each data list equals the appended list with
its oldest overflow dropped (`l[-max_points:]`), so when capacity was
exceeded by k the oldest k entries are absent and the newest
MAX_PLOT_POINTS remain in their original time order; between loop
iterations inserts via `add_data_point` can exceed the bound. -/
theorem plotLoopIter_eq_pos (st : PlotterState) (e l p : ℚ)
    (h : (st.timeData ++ [e]).length > MAX_PLOT_POINTS) :
    plotLoopIter st e l p =
      { st with
        timeData := (st.timeData ++ [e]).drop
          ((st.timeData ++ [e]).length - MAX_PLOT_POINTS),
        loadData := (st.loadData ++ [l]).drop
          ((st.loadData ++ [l]).length - MAX_PLOT_POINTS),
        positionData := (st.positionData ++ [p]).drop
          ((st.positionData ++ [p]).length - MAX_PLOT_POINTS),
        stressData := (st.stressData ++
            [PFloat.fin (if st.specimenArea > 0 then l / st.specimenArea else 0)]).drop
          ((st.stressData ++
            [PFloat.fin (if st.specimenArea > 0 then l / st.specimenArea else 0)]).length -
              MAX_PLOT_POINTS),
        strainData := (st.strainData ++
            [PFloat.fin (if st.gaugeLength > 0 then p / st.gaugeLength * 100 else 0)]).drop
          ((st.strainData ++
            [PFloat.fin (if st.gaugeLength > 0 then p / st.gaugeLength * 100 else 0)]).length -
              MAX_PLOT_POINTS),
        displacementData := (st.displacementData ++ [p]).drop
          ((st.displacementData ++ [p]).length - MAX_PLOT_POINTS) } := by
  simp only [plotLoopIter]
  rw [if_pos h]

theorem plotLoopIter_eq_neg (st : PlotterState) (e l p : ℚ)
    (h : ¬(st.timeData ++ [e]).length > MAX_PLOT_POINTS) :
    plotLoopIter st e l p =
      { st with
        timeData := st.timeData ++ [e],
        loadData := st.loadData ++ [l],
        positionData := st.positionData ++ [p],
        stressData := st.stressData ++
          [PFloat.fin (if st.specimenArea > 0 then l / st.specimenArea else 0)],
        strainData := st.strainData ++
          [PFloat.fin (if st.gaugeLength > 0 then p / st.gaugeLength * 100 else 0)],
        displacementData := st.displacementData ++ [p] } := by
  simp only [plotLoopIter]
  rw [if_neg h]

set_option maxRecDepth 8000 in
theorem c1_plot_loop_eviction (st : PlotterState) (elapsed load position : ℚ)
    (hs : st.stressData.length = st.timeData.length)
    (hn : st.strainData.length = st.timeData.length) :
    (plotLoopIter st elapsed load position).timeData.length ≤ MAX_PLOT_POINTS ∧
      (plotLoopIter st elapsed load position).stressData.length ≤ MAX_PLOT_POINTS ∧
      (plotLoopIter st elapsed load position).strainData.length ≤ MAX_PLOT_POINTS ∧
      (plotLoopIter st elapsed load position).timeData =
        (st.timeData ++ [elapsed]).drop
          ((st.timeData ++ [elapsed]).length - MAX_PLOT_POINTS) ∧
      (∃ v, (plotLoopIter st elapsed load position).stressData =
        (st.stressData ++ [v]).drop
          ((st.stressData ++ [v]).length - MAX_PLOT_POINTS)) ∧
      ∃ v, (plotLoopIter st elapsed load position).strainData =
        (st.strainData ++ [v]).drop
          ((st.strainData ++ [v]).length - MAX_PLOT_POINTS) := by
  by_cases hlen : (st.timeData ++ [elapsed]).length > MAX_PLOT_POINTS
  · rw [plotLoopIter_eq_pos st elapsed load position hlen]
    refine ⟨?_, ?_, ?_, rfl, ⟨_, rfl⟩, ⟨_, rfl⟩⟩
    · simp only [List.length_drop]
      omega
    · simp only [List.length_drop, List.length_append, List.length_cons,
        List.length_nil]
      omega
    · simp only [List.length_drop, List.length_append, List.length_cons,
        List.length_nil]
      omega
  · rw [plotLoopIter_eq_neg st elapsed load position hlen]
    have hts : (st.timeData ++ [elapsed]).length = st.timeData.length + 1 := by simp
    rw [hts] at hlen
    refine ⟨?_, ?_, ?_, ?_,
      ⟨PFloat.fin (if st.specimenArea > 0 then load / st.specimenArea else 0), ?_⟩,
      ⟨PFloat.fin (if st.gaugeLength > 0 then position / st.gaugeLength * 100 else 0), ?_⟩⟩
    · simp only [List.length_append, List.length_cons, List.length_nil]
      omega
    · simp only [List.length_append, List.length_cons, List.length_nil]
      omega
    · simp only [List.length_append, List.length_cons, List.length_nil]
      omega
    · rw [show (st.timeData ++ [elapsed]).length - MAX_PLOT_POINTS = 0 by
        simp only [List.length_append, List.length_cons, List.length_nil]
        omega]
      rw [List.drop_zero]
    · rw [show (st.stressData ++
          [PFloat.fin (if st.specimenArea > 0 then load / st.specimenArea else 0)]).length -
            MAX_PLOT_POINTS = 0 by
        simp only [List.length_append, List.length_cons, List.length_nil]
        omega]
      rw [List.drop_zero]
    · rw [show (st.strainData ++
          [PFloat.fin (if st.gaugeLength > 0 then position / st.gaugeLength * 100 else 0)]).length -
            MAX_PLOT_POINTS = 0 by
        simp only [List.length_append, List.length_cons, List.length_nil]
        omega]
      rw [List.drop_zero]

/-- C1 witness: one loop iteration from the freshly started plotter. -/
theorem c1_plot_loop_eviction_witness :
    (plotLoopIter initPlot 0 0 0).timeData.length ≤ MAX_PLOT_POINTS ∧
      (plotLoopIter initPlot 0 0 0).timeData =
        (initPlot.timeData ++ [0]).drop
          ((initPlot.timeData ++ [(0 : ℚ)]).length - MAX_PLOT_POINTS) :=
  ⟨(c1_plot_loop_eviction initPlot 0 0 0 rfl rfl).1,
    (c1_plot_loop_eviction initPlot 0 0 0 rfl rfl).2.2.2.1⟩

/-- C2 counterexample: feeding the single chunk "abc\n" makes the framer
deliver the complete line "abc" and then re-deliver the raw chunk
"abc\n": the concatenated frame contents (ignoring boundary bytes)
duplicate the input, and the echoed frame contains a boundary byte. -/
theorem c2_dual_delivery :
    feedAll [("abc\n").toList] =
        ([], [['a', 'b', 'c'], ['a', 'b', 'c', '\n']]) ∧
      removeNL (([['a', 'b', 'c'], ['a', 'b', 'c', '\n']] :
          List (List Char)).flatten) ≠ removeNL (("abc\n").toList) ∧
      '\n' ∈ (['a', 'b', 'c', '\n'] : List Char) := by
  decide

/-- C2 (amended): restricted to the complete-line frames emitted by the
framer's split loop, no byte is lost or duplicated: for chunks whose
bytes other than the '\n' boundaries are non-whitespace, the
concatenation of complete-line frame contents followed by the retained
partial fragment equals the concatenation of the input bytes with
boundary bytes removed, and no complete-line frame contains a boundary
byte.  (The claim as stated fails: every non-empty chunk is additionally
re-delivered raw, duplicating bytes — see the counterexample.) -/
theorem c2_complete_frames_conserve (chunks : List (List Char))
    (h : ∀ ch ∈ chunks, CleanChunk ch) :
    (feedComplete chunks).2.flatten ++ (feedComplete chunks).1 =
        removeNL chunks.flatten ∧
      ∀ f ∈ (feedComplete chunks).2, '\n' ∉ f := by
  have hgo := feedComplete_go chunks [] [] h
    (fun c hc => absurd hc (List.not_mem_nil c))
    (fun f hf => absurd hf (List.not_mem_nil f))
  simpa [feedComplete] using hgo

/-- C2 witness: two chunks, the first ending in a partial line that the
second completes. -/
theorem c2_complete_frames_conserve_witness :
    (∀ ch ∈ [("ab\ncd").toList, ("ef\n").toList], CleanChunk ch) ∧
      (feedComplete [("ab\ncd").toList, ("ef\n").toList]).2.flatten ++
          (feedComplete [("ab\ncd").toList, ("ef\n").toList]).1 =
        removeNL ([("ab\ncd").toList, ("ef\n").toList] :
          List (List Char)).flatten ∧
      ∀ f ∈ (feedComplete [("ab\ncd").toList, ("ef\n").toList]).2, '\n' ∉ f :=
  ⟨by decide,
    (c2_complete_frames_conserve [("ab\ncd").toList, ("ef\n").toList] (by decide)).1,
    (c2_complete_frames_conserve [("ab\ncd").toList, ("ef\n").toList] (by decide)).2⟩

theorem splitOnCharAux_cons (sep : Char) :
    ∀ l acc : List Char, ∃ ls,
      splitOnCharAux sep l acc =
        (acc.reverse ++ l.takeWhile (fun c => c != sep)) :: ls := by
  intro l
  induction l with
  | nil => intro acc; exact ⟨[], by simp [splitOnCharAux]⟩
  | cons c rest ih =>
    intro acc
    by_cases hc : c = sep
    · refine ⟨splitOnCharAux sep rest [], ?_⟩
      simp [splitOnCharAux, hc, List.takeWhile_cons]
    · obtain ⟨ls, hls⟩ := ih (c :: acc)
      refine ⟨ls, ?_⟩
      have hb : (c != sep) = true := by simpa using hc
      simp [splitOnCharAux, hc, hls, List.takeWhile_cons, hb, List.append_assoc]

theorem classify_state_tag (rest : List Char) :
    classify ("STATE:".toList ++ rest) =
      DeviceEvent.stateReported (String.mk (rest.takeWhile (fun c => c != ':'))) := by
  have hds : "STATE:".toList ++ rest = 'S' :: 'T' :: 'A' :: 'T' :: 'E' :: ':' :: rest := rfl
  rw [hds]
  have h1 : hasTag "LOAD:" ('S' :: 'T' :: 'A' :: 'T' :: 'E' :: ':' :: rest) = false := rfl
  have h2 : hasTag "POS:" ('S' :: 'T' :: 'A' :: 'T' :: 'E' :: ':' :: rest) = false := rfl
  have h3 : hasTag "STATE:" ('S' :: 'T' :: 'A' :: 'T' :: 'E' :: ':' :: rest) = true := rfl
  obtain ⟨ls, hls⟩ := splitOnCharAux_cons ':' rest []
  have h4 : colonField1 ('S' :: 'T' :: 'A' :: 'T' :: 'E' :: ':' :: rest) =
      rest.takeWhile (fun c => c != ':') := by
    have h5 : colonField1 ('S' :: 'T' :: 'A' :: 'T' :: 'E' :: ':' :: rest) =
        (splitOnCharAux ':' rest []).getD 0 [] := rfl
    rw [h5, hls]
    simp
  simp [classify, h1, h2, h3, h4]

/-- C3 counterexample: the dispatcher takes `data.split(':')[1]`, so a
`STATE:` frame whose label contains a colon is truncated at that colon:
"STATE:A:B" reports the label "A", not the entire remainder "A:B". -/
theorem c3_state_label_truncated :
    classify ("STATE:A:B".toList) = DeviceEvent.stateReported "A" ∧
      classify ("STATE:A:B".toList) ≠ DeviceEvent.stateReported "A:B" := by
  decide

unseal Rat.add Rat.mul Rat.inv Rat.sub in
/-- C3 (amended): the dispatcher classifies frames by the fixed prefix
table with `split(':')[1]` as the payload: "LOAD:12.5" yields telemetry
load 12.5 (updating only the latest-load field), "BTN:3" yields the Stop
button event (running the stop command), "STATE:<label>" yields
StateReported whose label is the remainder up to the next colon (not the
entire remainder), and a frame matching no prefix or with a malformed
numeric payload degrades to Unrecognized, leaving the state unchanged and
never aborting the read loop. -/
theorem c3_dispatch_table :
    classify ("LOAD:12.5".toList) = DeviceEvent.telemetryLoad (25 / 2) ∧
      (∀ st : CtrlState, handleSerialData st ("LOAD:12.5".toList) =
        ({ st with loadValue := 25 / 2 }, [])) ∧
      classify ("BTN:3".toList) = DeviceEvent.buttonPressed Cmd.stopCmd ∧
      handleSerialData stConnectedCtrl ("BTN:3".toList) =
        ({ stConnectedCtrl with machineState := "Stopped" }, ["0\n"]) ∧
      (∀ rest : List Char, classify ("STATE:".toList ++ rest) =
        DeviceEvent.stateReported (String.mk (rest.takeWhile (fun c => c != ':')))) ∧
      (classify ("garbage".toList) = DeviceEvent.unrecognized "garbage" ∧
        ∀ st : CtrlState, handleSerialData st ("garbage".toList) = (st, [])) ∧
      classify ("LOAD:abc".toList) = DeviceEvent.unrecognized "LOAD:abc" ∧
      ∀ st : CtrlState, handleSerialData st ("LOAD:abc".toList) = (st, []) := by
  have hload : classify ("LOAD:12.5".toList) = DeviceEvent.telemetryLoad (25 / 2) := by
    decide
  have hgarbage : classify ("garbage".toList) = DeviceEvent.unrecognized "garbage" := by
    decide
  have hmal : classify ("LOAD:abc".toList) = DeviceEvent.unrecognized "LOAD:abc" := by
    decide
  refine ⟨hload, fun st => ?_, by decide, by decide, classify_state_tag,
    ⟨hgarbage, fun st => ?_⟩, hmal, fun st => ?_⟩
  · simp only [handleSerialData]
    rw [hload]
  · simp only [handleSerialData]
    rw [hgarbage]
  · simp only [handleSerialData]
    rw [hmal]

/-- C9 witness: the delivery clause at the concrete over-limit input with
one registered callback. -/
theorem c9_safety_monitor_witness :
    (0 : ℕ) ∈ ({ safetyCallbacks := [0] } : SafetyMonitor).safetyCallbacks ∧
      (checkSafetyLimits { safetyCallbacks := [0] } 15000 0).1 ≠ [] ∧
      ((0 : ℕ), (checkSafetyLimits { safetyCallbacks := [0] } 15000 0).1) ∈
        (checkSafetyLimits { safetyCallbacks := [0] } 15000 0).2.1 :=
  ⟨by decide, by decide,
    c9_safety_monitor.2.1 { safetyCallbacks := [0] } 15000 0 0 (by decide) (by decide)⟩

end UTM
